import Mathlib

/-!
Verification of the webhook dispatch service and the iMessage poll
coordinator (`packages/server/src/server/services/webhookService/index.ts`
and the listener it feeds).  Timestamps are modelled as `Int`
(milliseconds), external effects (database reads, JSON parsing, HTTP
deliveries) as explicit outcome parameters.
-/

namespace BlueBubbles

/-- Milliseconds in 24 hours, as in `handleChangeEvent`. -/
def dayMs : Int := 86400000

/-- Window lower bound computed by the debounced change handler
(`IMessageListener.handleChangeEvent`, lines 223-237): clamp an invalid or
stale `lastCheck`, subtract the 30 s overlap, clamp to `now`. -/
def debouncedLowerBound (lastCheck now : Int) : Int :=
  let prevTime :=
    if lastCheck ≤ 0 ∨ lastCheck > now then now
    else if now - lastCheck > dayMs then now - dayMs
    else lastCheck
  let afterTime := prevTime - 30000
  if afterTime > now then now else afterTime

/-- Window lower bound computed by the fallback poll handler
(`IMessageListener.handleFallbackPoll`, lines 204-208): `lastCheck − 30 s`,
reset to `now − 60 s` when that value is in the future or nonpositive. -/
def fallbackLowerBound (lastCheck now : Int) : Int :=
  let afterTime := lastCheck - 30000
  if afterTime > now ∨ afterTime ≤ 0 then now - 60000 else afterTime

/-- The debounced window rule exactly as the specification words it
(§4.1 step 2, `debounced` tag), for refinement against the code's
`debouncedLowerBound`. -/
def specDebouncedLowerBound (lastCheck now : Int) : Int :=
  let prev : Int :=
    if lastCheck ≤ 0 ∨ lastCheck > now then now
    else if now - lastCheck > 86400000 then now - 86400000
    else lastCheck
  let lb := prev - 30000
  if lb > now then now else lb

end BlueBubbles

namespace BlueBubbles

/-- A webhook registration as read from the Subscription Store:
`url` plus the serialized event-type filter list (`Webhook` entity). -/
structure Webhook where
  url : String
  events : String
deriving Repr, DecidableEq

/-- A cache entry member: the registration plus its parsed filter list
(`CachedWebhook` in the source). -/
structure CachedWebhook where
  webhook : Webhook
  eventTypes : List String
deriving Repr, DecidableEq

/-- A domain event handed to `dispatch` (`WebhookEvent` in the source);
the opaque payload is modelled as a string. -/
structure WebhookEvent where
  type : String
  data : String
deriving Repr, DecidableEq

/-- The `WebhookService` cache fields: `webhookCache` and `cacheExpiry`. -/
structure CacheState where
  webhookCache : Option (List CachedWebhook)
  cacheExpiry : Int
deriving Repr, DecidableEq

/-- The cache TTL `CACHE_TTL_MS` from the source: 30 seconds. -/
def CACHE_TTL_MS : Int := 30000

/-- The service's initial cache state: no cache, expiry 0. -/
def cacheInit : CacheState := ⟨none, 0⟩

/-- The `invalidateCache` method (lines 32-35): unconditionally clear the cache and
zero the expiry. -/
def invalidateCache (_st : CacheState) : CacheState := ⟨none, 0⟩

/-- Outcomes of the dispatcher's external effects: the Subscription Store
read (`Server().repo.getWebhooks()`), `JSON.parse` on a serialized filter
list, and `axios.post` to a target url. -/
structure DispatchEnv where
  getWebhooks : Except String (List Webhook)
  jsonParse : String → Except String (List String)
  sendPost : String → Except String Unit

/-- The cache-fill mapping (lines 48-51): parse each registration's
serialized filter list once, in order; a parse failure aborts the fill. -/
def parseWebhooks (jsonParse : String → Except String (List String)) :
    List Webhook → Except String (List CachedWebhook)
  | [] => .ok []
  | w :: ws =>
    match jsonParse w.events with
    | .error e => .error e
    | .ok evs =>
      match parseWebhooks jsonParse ws with
      | .error e => .error e
      | .ok rest => .ok (⟨w, evs⟩ :: rest)

/-- Result of a `getWebhooksWithCache` call, with counters for how many
Subscription Store reads and filter-list parses the call performed. -/
structure CacheFetch where
  cached : List CachedWebhook
  state : CacheState
  storeReads : Nat
  parses : Nat
deriving Repr

/-- The cache-miss path of `getWebhooksWithCache` (lines 46-53): read the
store, parse every filter list once, install a new entry expiring at
`now + CACHE_TTL_MS`; a store-read or parse error propagates. -/
def refillCache (env : DispatchEnv) (now : Int) : Except String CacheFetch :=
  match env.getWebhooks with
  | .error e => .error e
  | .ok ws =>
    match parseWebhooks env.jsonParse ws with
    | .error e => .error e
    | .ok cs => .ok ⟨cs, ⟨some cs, now + CACHE_TTL_MS⟩, 1, ws.length⟩

/-- The `getWebhooksWithCache` method (lines 40-54): return the cache when present and
unexpired; otherwise refill it from the Subscription Store. -/
def getWebhooksWithCache (env : DispatchEnv) (st : CacheState) (now : Int) :
    Except String CacheFetch :=
  match st.webhookCache with
  | some cache =>
    if now < st.cacheExpiry then .ok ⟨cache, st, 0, 0⟩
    else refillCache env now
  | none => refillCache env now

/-- The applicability filter of `dispatch` (lines 60-62): the parsed filter
list contains the wildcard or the event's type exactly. -/
def matchesEvent (eventType : String) (c : CachedWebhook) : Bool :=
  c.eventTypes.contains "*" || c.eventTypes.contains eventType

/-- Observable outcome of one `dispatch` call: the urls delivery was
initiated to, the urls whose delivery succeeded, the per-delivery failure
logs, the cache state left behind, and the effect counters. -/
structure DispatchResult where
  initiated : List String
  deliveredOk : List String
  failureLogs : List String
  state : CacheState
  storeReads : Nat
  parses : Nat
deriving Repr

/-- True when a delivery outcome is a success. -/
def deliveryOk (env : DispatchEnv) (u : String) : Bool :=
  match env.sendPost u with
  | .ok _ => true
  | .error _ => false

/-- The failure log a single delivery produces (lines 69-73): the event
type, the target url and the error detail; `none` on success. -/
def deliveryLog (env : DispatchEnv) (eventType u : String) : Option String :=
  match env.sendPost u with
  | .ok _ => none
  | .error e =>
    some ("Failed to dispatch " ++ eventType ++ " event to webhook: " ++ u
      ++ " -> Error: " ++ e)

/-- The `dispatch` method (lines 56-80): resolve the cache (a store-read or parse error
propagates, there is no catch around it), filter to applicable webhooks,
return early when none match, otherwise initiate every delivery; each
delivery failure is caught and logged individually and `Promise.all`'s
rejection is swallowed, so delivery outcomes never propagate. -/
def dispatch (env : DispatchEnv) (st : CacheState) (now : Int)
    (event : WebhookEvent) : Except String DispatchResult :=
  match getWebhooksWithCache env st now with
  | .error e => .error e
  | .ok fetch =>
    let applicable := fetch.cached.filter (matchesEvent event.type)
    if applicable.isEmpty then
      .ok ⟨[], [], [], fetch.state, fetch.storeReads, fetch.parses⟩
    else
      let urls := applicable.map (fun c => c.webhook.url)
      .ok ⟨urls,
           urls.filter (deliveryOk env),
           urls.filterMap (deliveryLog env event.type),
           fetch.state, fetch.storeReads, fetch.parses⟩

end BlueBubbles

namespace BlueBubbles

/-- C1: the claim says a fallback cycle entered with `lastCheck = now + 5000`
resets the lower bound to `now − 60000`.  At `now = 1000000` the code instead
yields `now − 25000 = 975000`, because `lastCheck − 30000 = now − 25000` is
neither in the future nor nonpositive. -/
theorem c1_counterexample :
    ¬ fallbackLowerBound (1000000 + 5000) 1000000 = 1000000 - 60000 := by
  decide

/-- C1 (amended): for a fallback-path poll cycle entered with
`lastCheck = now + 5000` and `now > 25000`, the window lower bound passed to
the Pollers is `now − 25000`; the reset to `now − 60000` happens only when
`lastCheck − 30000` exceeds `now` or is nonpositive. -/
theorem c1_fallback_skewed (now : Int) (h : now > 25000) :
    fallbackLowerBound (now + 5000) now = now - 25000 := by
  unfold fallbackLowerBound
  have h1 : ¬ (now + 5000 - 30000 > now ∨ now + 5000 - 30000 ≤ 0) := by omega
  simp only [h1, if_false]
  omega

/-- C1 witness: the amended statement at `now = 1000000`. -/
theorem c1_fallback_skewed_witness :
    fallbackLowerBound (1000000 + 5000) 1000000 = 1000000 - 25000 :=
  c1_fallback_skewed 1000000 (by decide)

/-- C2: the claim asserts `now − 24h − 30s ≤ L ≤ now` for both trigger
paths and every prior `lastCheck`.  The fallback path violates the lower
half: with `lastCheck = 100000000` and `now = 200000000` (a `lastCheck`
more than 24 h stale) the fallback bound is `99970000`, far below
`now − 86430000 = 113570000`. -/
theorem c2_counterexample :
    ¬ (200000000 - dayMs - 30000 ≤ fallbackLowerBound 100000000 200000000) := by
  decide

/-- C2 (amended): both paths satisfy `L ≤ now`; the debounced path
additionally satisfies `now − 24h − 30s ≤ L`, but the fallback path has no
24-hour clamp, so a `lastCheck` more than 24 h stale yields a fallback
bound below `now − 24h − 30s`. -/
theorem c2_window_bounds (lastCheck now : Int) :
    (now - dayMs - 30000 ≤ debouncedLowerBound lastCheck now
      ∧ debouncedLowerBound lastCheck now ≤ now)
    ∧ fallbackLowerBound lastCheck now ≤ now := by
  simp only [debouncedLowerBound, fallbackLowerBound, dayMs]
  split_ifs <;> omega

/-- C4: the debounced-path lower bound computed by the code agrees with the
procedure the specification describes, for every `lastCheck` and `now`; in
particular `lastCheck = 0` yields `now − 30000`, and a `lastCheck` of
`now − 100000000` (with `now > 100000000`) yields `now − 86400000 − 30000`. -/
theorem c4_debounced_window (lastCheck now : Int) :
    debouncedLowerBound lastCheck now = specDebouncedLowerBound lastCheck now
    ∧ debouncedLowerBound 0 now = now - 30000
    ∧ (now > 100000000 →
        debouncedLowerBound (now - 100000000) now = now - dayMs - 30000) := by
  refine ⟨rfl, ?_, ?_⟩
  · simp only [debouncedLowerBound, dayMs]
    split_ifs <;> omega
  · intro h
    simp only [debouncedLowerBound, dayMs]
    split_ifs <;> omega

/-- C4 witness: the debounced window facts at `lastCheck = 5`,
`now = 200000000`. -/
theorem c4_debounced_window_witness :
    debouncedLowerBound 5 200000000 = specDebouncedLowerBound 5 200000000
    ∧ debouncedLowerBound 0 200000000 = 200000000 - 30000
    ∧ ((200000000 : Int) > 100000000 →
        debouncedLowerBound ((200000000 : Int) - 100000000) 200000000
          = 200000000 - dayMs - 30000) :=
  c4_debounced_window 5 200000000

/-- A cache hit (non-null cache, `now < cacheExpiry`) returns the cached
entry with zero store reads and zero parses. -/
theorem getWebhooksWithCache_hit (env : DispatchEnv) (st : CacheState)
    (now : Int) (cws : List CachedWebhook)
    (hc : st.webhookCache = some cws) (hx : now < st.cacheExpiry) :
    getWebhooksWithCache env st now = .ok ⟨cws, st, 0, 0⟩ := by
  unfold getWebhooksWithCache
  rw [hc]
  simp [hx]

/-- A successful refill reads the store once and parses each registration
exactly once. -/
theorem refillCache_eq (env : DispatchEnv) (now : Int) (ws : List Webhook)
    (cs : List CachedWebhook) (hget : env.getWebhooks = .ok ws)
    (hparse : parseWebhooks env.jsonParse ws = .ok cs) :
    refillCache env now = .ok ⟨cs, ⟨some cs, now + CACHE_TTL_MS⟩, 1, ws.length⟩ := by
  simp [refillCache, hget, hparse]

/-- From the initial (empty) cache state, `getWebhooksWithCache` always
takes the refill path. -/
theorem getWebhooksWithCache_init (env : DispatchEnv) (now : Int) :
    getWebhooksWithCache env cacheInit now = refillCache env now := rfl

/-- When cache resolution succeeds, `dispatch` succeeds and its outcome is
exactly: deliveries initiated to the applicable urls in cache order, the
successes being those whose own outbound request succeeds, one failure log
per failed delivery, and the fetch's state and effect counters. -/
theorem dispatch_ok_spec (env : DispatchEnv) (st : CacheState) (now : Int)
    (ev : WebhookEvent) (fetch : CacheFetch)
    (h : getWebhooksWithCache env st now = .ok fetch) :
    ∃ r, dispatch env st now ev = .ok r
      ∧ r.initiated = (fetch.cached.filter (matchesEvent ev.type)).map
          (fun c => c.webhook.url)
      ∧ r.deliveredOk = r.initiated.filter (deliveryOk env)
      ∧ r.failureLogs = r.initiated.filterMap (deliveryLog env ev.type)
      ∧ r.state = fetch.state ∧ r.storeReads = fetch.storeReads
      ∧ r.parses = fetch.parses := by
  simp only [dispatch, h]
  by_cases hemp : (fetch.cached.filter (matchesEvent ev.type)).isEmpty
  · rw [List.isEmpty_iff] at hemp
    simp [hemp]
  · simp only [hemp, if_false, Bool.false_eq_true]
    exact ⟨_, rfl, rfl, rfl, rfl, rfl, rfl, rfl⟩

/-- Environment whose Subscription Store read fails. -/
def dbDownEnv : DispatchEnv :=
  ⟨.error "db unavailable", fun _ => .ok [], fun _ => .ok ()⟩

/-- Environment whose store is empty and whose effects all succeed. -/
def okEnv : DispatchEnv := ⟨.ok [], fun _ => .ok [], fun _ => .ok ()⟩

/-- C3: the claim says `dispatch` never throws or returns an error to its
caller for every behavior of the Subscription Store read and of filter
parsing.  It fails on the code: with an empty cache and a store read that
errors, `dispatch` propagates that error to its caller, since no try/catch
surrounds `getWebhooksWithCache`. -/
theorem c3_counterexample :
    dispatch dbDownEnv cacheInit 0 ⟨"msg-new", "1"⟩ = .error "db unavailable" := rfl

/-- C3 (amended): outbound delivery failures never propagate out of
`dispatch` — for every delivery-outcome behavior it returns successfully —
provided cache resolution (the Subscription Store read and the parsing of
each registration's filter list) succeeds; a store-read or parse error
during a cache fill does propagate to the caller. -/
theorem c3_dispatch_silent (env : DispatchEnv) (st : CacheState) (now : Int)
    (ev : WebhookEvent) (fetch : CacheFetch)
    (h : getWebhooksWithCache env st now = .ok fetch) :
    ∃ r, dispatch env st now ev = .ok r := by
  obtain ⟨r, hr, -⟩ := dispatch_ok_spec env st now ev fetch h
  exact ⟨r, hr⟩

/-- C3 witness: the amended statement at a concrete environment. -/
theorem c3_dispatch_silent_witness :
    ∃ r, dispatch okEnv cacheInit 0 ⟨"msg-new", "1"⟩ = .ok r :=
  c3_dispatch_silent okEnv cacheInit 0 ⟨"msg-new", "1"⟩
    ⟨[], ⟨some [], 0 + CACHE_TTL_MS⟩, 1, 0⟩ rfl

/-- C6: starting from an empty cache, a `dispatch` at `t1` reads the
Subscription Store exactly once and parses each registration's filter list
exactly once; a second `dispatch` at `t2 < t1 + TTL` performs zero store
reads and zero parses and leaves the cache state unchanged; calling
`invalidateCache` between the two discards the entry unconditionally, so
the next `dispatch` reads the store again regardless of remaining TTL. -/
theorem c6_cache_single_read (env : DispatchEnv) (ws : List Webhook)
    (cs : List CachedWebhook) (t1 t2 : Int) (ev1 ev2 : WebhookEvent)
    (hget : env.getWebhooks = .ok ws)
    (hparse : parseWebhooks env.jsonParse ws = .ok cs)
    (hwin : t2 < t1 + CACHE_TTL_MS) :
    ∃ r1 r2 r3,
      dispatch env cacheInit t1 ev1 = .ok r1
      ∧ r1.storeReads = 1 ∧ r1.parses = ws.length
      ∧ dispatch env r1.state t2 ev2 = .ok r2
      ∧ r2.storeReads = 0 ∧ r2.parses = 0 ∧ r2.state = r1.state
      ∧ dispatch env (invalidateCache r1.state) t2 ev2 = .ok r3
      ∧ r3.storeReads = 1 := by
  have h1 : getWebhooksWithCache env cacheInit t1
      = .ok ⟨cs, ⟨some cs, t1 + CACHE_TTL_MS⟩, 1, ws.length⟩ := by
    rw [getWebhooksWithCache_init]
    exact refillCache_eq env t1 ws cs hget hparse
  obtain ⟨r1, hr1, -, -, -, hst1, hreads1, hparses1⟩ :=
    dispatch_ok_spec env cacheInit t1 ev1 _ h1
  have h2 : getWebhooksWithCache env r1.state t2 = .ok ⟨cs, r1.state, 0, 0⟩ := by
    refine getWebhooksWithCache_hit env r1.state t2 cs ?_ ?_
    · rw [hst1]
    · rw [hst1]; exact hwin
  obtain ⟨r2, hr2, -, -, -, hst2, hreads2, hparses2⟩ :=
    dispatch_ok_spec env r1.state t2 ev2 _ h2
  have h3 : getWebhooksWithCache env (invalidateCache r1.state) t2
      = .ok ⟨cs, ⟨some cs, t2 + CACHE_TTL_MS⟩, 1, ws.length⟩ := by
    show refillCache env t2 = _
    exact refillCache_eq env t2 ws cs hget hparse
  obtain ⟨r3, hr3, -, -, -, -, hreads3, -⟩ :=
    dispatch_ok_spec env (invalidateCache r1.state) t2 ev2 _ h3
  exact ⟨r1, r2, r3, hr1, hreads1, hparses1, hr2, hreads2, hparses2, hst2,
    hr3, hreads3⟩

/-- Environment for the cache-behavior witness: one registration, all
effects succeed. -/
def oneHookEnv : DispatchEnv :=
  ⟨.ok [⟨"hook1", "f1"⟩], fun _ => .ok ["*"], fun _ => .ok ()⟩

/-- C6 witness: the cache behavior at a concrete environment with one
registration, first call at t=0, second at t=10000. -/
theorem c6_cache_single_read_witness :
    ∃ r1 r2 r3,
      dispatch oneHookEnv cacheInit 0 ⟨"msg-new", "1"⟩ = .ok r1
      ∧ r1.storeReads = 1 ∧ r1.parses = [(⟨"hook1", "f1"⟩ : Webhook)].length
      ∧ dispatch oneHookEnv r1.state 10000 ⟨"msg-new", "2"⟩ = .ok r2
      ∧ r2.storeReads = 0 ∧ r2.parses = 0 ∧ r2.state = r1.state
      ∧ dispatch oneHookEnv (invalidateCache r1.state) 10000 ⟨"msg-new", "2"⟩ = .ok r3
      ∧ r3.storeReads = 1 :=
  c6_cache_single_read oneHookEnv [⟨"hook1", "f1"⟩] [⟨⟨"hook1", "f1"⟩, ["*"]⟩]
    0 10000 ⟨"msg-new", "1"⟩ ⟨"msg-new", "2"⟩ rfl rfl (by decide)

/-- The three cached subscriptions of the spec's dispatch scenario: filter
lists wildcard, `msg-new` and `msg-deleted`. -/
def demoCached : List CachedWebhook :=
  [⟨⟨"hook1", "f1"⟩, ["*"]⟩,
   ⟨⟨"hook2", "f2"⟩, ["msg-new"]⟩,
   ⟨⟨"hook3", "f3"⟩, ["msg-deleted"]⟩]

/-- A cache state holding the three demo subscriptions, valid until 1000. -/
def demoState : CacheState := ⟨some demoCached, 1000⟩

/-- C7: with a valid cache, `dispatch` initiates a delivery to exactly the
cached subscriptions whose filter list contains the wildcard or the event's
type, in cache order and to no others, and initiates none when no
subscription matches; in particular a `msg-new` event against filter lists
`[*]`, `[msg-new]`, `[msg-deleted]` is delivered to exactly the first
two. -/
theorem c7_dispatch_filtering (env : DispatchEnv) (st : CacheState)
    (now : Int) (ev : WebhookEvent) (cws : List CachedWebhook)
    (hc : st.webhookCache = some cws) (hx : now < st.cacheExpiry) :
    (∃ r, dispatch env st now ev = .ok r
      ∧ r.initiated = (cws.filter (matchesEvent ev.type)).map
          (fun c => c.webhook.url)
      ∧ (∀ u, u ∈ r.initiated ↔ ∃ c, c ∈ cws
          ∧ (c.eventTypes.contains "*" = true
              ∨ c.eventTypes.contains ev.type = true)
          ∧ c.webhook.url = u)
      ∧ ((∀ c ∈ cws, matchesEvent ev.type c = false) → r.initiated = []))
    ∧ (∃ r, dispatch okEnv demoState 5 ⟨"msg-new", "1"⟩ = .ok r
        ∧ r.initiated = ["hook1", "hook2"]) := by
  constructor
  · obtain ⟨r, hr, hinit, -, -, -, -, -⟩ :=
      dispatch_ok_spec env st now ev _ (getWebhooksWithCache_hit env st now cws hc hx)
    refine ⟨r, hr, hinit, ?_, ?_⟩
    · intro u
      rw [hinit]
      simp [List.mem_filter, matchesEvent, and_assoc]
    · intro hnone
      rw [hinit, List.filter_eq_nil_iff.mpr ?_, List.map_nil]
      intro c hcmem
      simp [hnone c hcmem]
  · exact ⟨_, rfl, by decide⟩

/-- C7 witness: filtering at the concrete three-subscription scenario. -/
theorem c7_dispatch_filtering_witness :
    ∃ r, dispatch okEnv demoState 5 ⟨"msg-new", "1"⟩ = .ok r
      ∧ r.initiated = ((demoCached.filter (matchesEvent "msg-new")).map
          (fun c => c.webhook.url)) := by
  obtain ⟨⟨r, hr, hinit, -, -⟩, -⟩ :=
    c7_dispatch_filtering okEnv demoState 5 ⟨"msg-new", "1"⟩ demoCached rfl (by decide)
  exact ⟨r, hr, hinit⟩

/-- The three all-matching subscriptions for the delivery-isolation
scenario. -/
def demoAllMatch : List CachedWebhook :=
  [⟨⟨"hook1", "f1"⟩, ["msg-new"]⟩,
   ⟨⟨"hook2", "f2"⟩, ["*"]⟩,
   ⟨⟨"hook3", "f3"⟩, ["msg-new"]⟩]

/-- A cache state holding the three all-matching subscriptions. -/
def demoAllState : CacheState := ⟨some demoAllMatch, 1000⟩

/-- Environment whose delivery to `hook2` fails and all others succeed. -/
def failSecondEnv : DispatchEnv :=
  ⟨.ok [], fun _ => .ok [],
   fun u => if u = "hook2" then .error "connect ECONNREFUSED" else .ok ()⟩

/-- C8: whenever `dispatch` runs (cache resolution succeeding), each
delivery succeeds or fails on its own: the successful targets are exactly
the initiated targets whose own outbound request succeeds, every failed
delivery is logged with the event type, the target url and the error
detail, and nothing propagates to the caller; in particular with three
matching subscriptions where the second delivery fails, the first and
third still receive their delivery. -/
theorem c8_delivery_isolation (env : DispatchEnv) (st : CacheState)
    (now : Int) (ev : WebhookEvent) (fetch : CacheFetch)
    (h : getWebhooksWithCache env st now = .ok fetch) :
    (∃ r, dispatch env st now ev = .ok r
      ∧ r.deliveredOk = r.initiated.filter (deliveryOk env)
      ∧ r.failureLogs = r.initiated.filterMap (deliveryLog env ev.type)
      ∧ ∀ u ∈ r.initiated, deliveryOk env u = true → u ∈ r.deliveredOk)
    ∧ (∃ r, dispatch failSecondEnv demoAllState 5 ⟨"msg-new", "1"⟩ = .ok r
        ∧ r.initiated = ["hook1", "hook2", "hook3"]
        ∧ r.deliveredOk = ["hook1", "hook3"]
        ∧ r.failureLogs
            = ["Failed to dispatch msg-new event to webhook: hook2 -> Error: connect ECONNREFUSED"]) := by
  constructor
  · obtain ⟨r, hr, -, hok, hlogs, -, -, -⟩ := dispatch_ok_spec env st now ev _ h
    refine ⟨r, hr, hok, hlogs, ?_⟩
    intro u hu hdel
    rw [hok]
    exact List.mem_filter.mpr ⟨hu, hdel⟩
  · exact ⟨_, rfl, by decide, by decide, by decide⟩

/-- C8 witness: delivery isolation at the concrete failing-second-delivery
scenario. -/
theorem c8_delivery_isolation_witness :
    ∃ r, dispatch failSecondEnv demoAllState 5 ⟨"msg-new", "1"⟩ = .ok r
      ∧ r.deliveredOk = r.initiated.filter (deliveryOk failSecondEnv) := by
  obtain ⟨⟨r, hr, hok, -, -⟩, -⟩ :=
    c8_delivery_isolation failSecondEnv demoAllState 5 ⟨"msg-new", "1"⟩
      ⟨demoAllMatch, demoAllState, 0, 0⟩
      (getWebhooksWithCache_hit failSecondEnv demoAllState 5 demoAllMatch rfl (by decide))
  exact ⟨r, hr, hok⟩

/-- A domain event produced by a poller (`result.eventType`,
`result.data`); the payload is modelled as a string. -/
structure PollEvent where
  eventType : String
  data : String
deriving Repr, DecidableEq

/-- A poller's behavior: the outcome of its `poll` call at a given window
lower bound. -/
abbrev Poller := Int → Except String (List PollEvent)

/-- The emitter's behavior on one event: `ok` when every listener returns
normally, `error` when a listener throws (which propagates out of
`emit`). -/
abbrev EmitFn := PollEvent → Except String Unit

/-- Emission of one poller's result batch, in order; the first listener
error aborts the batch. -/
def emitAll (emitF : EmitFn) : List PollEvent → Except String Unit
  | [] => .ok ()
  | e :: es =>
    match emitF e with
    | .error err => .error err
    | .ok _ => emitAll emitF es

/-- The method `IMessageListener.poll` (lines 252-263) with `emitResults = true`:
invoke each registered poller in registration order with the window lower
bound, emitting each poller's results as it returns; an error from a
poller or from emission propagates immediately, skipping the remaining
pollers.  Returns the outcome together with the number of pollers
invoked. -/
def poll (pollers : List Poller) (emitF : EmitFn) (after : Int) :
    Except String Unit × Nat :=
  match pollers with
  | [] => (.ok (), 0)
  | p :: ps =>
    match p after with
    | .error e => (.error e, 1)
    | .ok rs =>
      match emitAll emitF rs with
      | .error e => (.error e, 1)
      | .ok _ =>
        let rest := poll ps emitF after
        (rest.1, rest.2 + 1)

/-- Which path entered the cycle. -/
inductive TriggerSource
  | debounced
  | fallback
deriving Repr, DecidableEq

/-- The listener state the two handlers touch: `lastCheck`, the number of
`trimCaches` calls, the `Sema(1)` permit count (1 = lock free), and the
handler error log. -/
structure ListenerState where
  lastCheck : Int
  trimCount : Nat
  permits : Int
  errorLog : List String
deriving Repr, DecidableEq

/-- The listener state right after construction and `start()` seeded
`lastCheck`: lock free, nothing trimmed, empty log. -/
def listenerInit (lastCheck : Int) : ListenerState := ⟨lastCheck, 0, 1, []⟩

/-- The window lower bound a cycle computes, by trigger source. -/
def windowOf (src : TriggerSource) (lastCheck now : Int) : Int :=
  match src with
  | .debounced => debouncedLowerBound lastCheck now
  | .fallback => fallbackLowerBound lastCheck now

/-- The error-log line of each handler's catch block. -/
def cycleErrorMsg (src : TriggerSource) (e : String) : String :=
  match src with
  | .debounced => "Error handling change event: " ++ e
  | .fallback => "Error in fallback poll: " ++ e

/-- One full handler run (`handleFallbackPoll` lines 201-217,
`handleChangeEvent` lines 219-250): acquire the lock, compute the window
lower bound for the trigger source, run the pollers with emission; on
success set `lastCheck = now` and call `trimCaches`; on error, catch and
log, leaving `lastCheck` and the trim count untouched; on both paths the
`finally` block releases the lock. -/
def cycleStep (pollers : List Poller) (emitF : EmitFn) (src : TriggerSource)
    (now : Int) (st : ListenerState) : ListenerState :=
  let acquired : ListenerState := { st with permits := st.permits - 1 }
  let afterTime := windowOf src acquired.lastCheck now
  let done : ListenerState :=
    match (poll pollers emitF afterTime).1 with
    | .ok _ =>
      { acquired with lastCheck := now, trimCount := acquired.trimCount + 1 }
    | .error e =>
      { acquired with errorLog := acquired.errorLog ++ [cycleErrorMsg src e] }
  { done with permits := done.permits + 1 }

/-- A cycle descriptor: poller and emitter behaviors, trigger source and
clock reading. -/
structure CycleInput where
  pollers : List Poller
  emitF : EmitFn
  src : TriggerSource
  now : Int

/-- Run a finite sequence of poll cycles. -/
def runCycles (st : ListenerState) : List CycleInput → ListenerState
  | [] => st
  | c :: cs => runCycles (cycleStep c.pollers c.emitF c.src c.now st) cs

/-- When each poller of a prefix succeeds (with successful emission) and
the next poller errors, `poll` stops there: the error propagates and
exactly the prefix plus the failing poller were invoked. -/
theorem poll_error_stops (ps1 : List Poller) (pbad : Poller)
    (ps2 : List Poller) (emitF : EmitFn) (after : Int) (e : String)
    (hok : ∀ p ∈ ps1, ∃ rs, p after = .ok rs ∧ emitAll emitF rs = .ok ())
    (hbad : pbad after = .error e) :
    poll (ps1 ++ pbad :: ps2) emitF after = (.error e, ps1.length + 1) := by
  induction ps1 with
  | nil => simp [poll, hbad]
  | cons p ps ih =>
    obtain ⟨rs, hp, he⟩ := hok p (by simp)
    have ih2 := ih (fun q hq => hok q (by simp [hq]))
    simp [poll, hp, he, ih2]

/-- C5: if a poller raises during a cycle, the pollers registered after it
are not invoked in that cycle (exactly the preceding pollers and the
failing one ran), the error is caught by the handler and logged without
propagating, and the cycle's completion updates are skipped: the state
after the cycle keeps the `lastCheck` and `trimCaches` count from before,
gaining only the log entry. -/
theorem c5_poller_error_aborts (ps1 : List Poller) (pbad : Poller)
    (ps2 : List Poller) (emitF : EmitFn) (src : TriggerSource)
    (now : Int) (st : ListenerState) (e : String)
    (hok : ∀ p ∈ ps1, ∃ rs, p (windowOf src st.lastCheck now) = .ok rs
      ∧ emitAll emitF rs = .ok ())
    (hbad : pbad (windowOf src st.lastCheck now) = .error e) :
    (poll (ps1 ++ pbad :: ps2) emitF (windowOf src st.lastCheck now)).2
        = ps1.length + 1
    ∧ cycleStep (ps1 ++ pbad :: ps2) emitF src now st
        = { st with errorLog := st.errorLog ++ [cycleErrorMsg src e] } := by
  have h := poll_error_stops ps1 pbad ps2 emitF _ e hok hbad
  refine ⟨by rw [h], ?_⟩
  obtain ⟨lc, tc, pm, log⟩ := st
  simp only [cycleStep, h]
  simp only [ListenerState.mk.injEq]
  exact ⟨trivial, trivial, by omega, trivial⟩

/-- A poller that always succeeds with no results. -/
def okPoller : Poller := fun _ => .ok []

/-- A poller that always raises. -/
def badPoller : Poller := fun _ => .error "poller exploded"

/-- An emitter whose listeners never throw. -/
def okEmit : EmitFn := fun _ => .ok ()

/-- C5 witness: a cycle over three pollers whose second raises, entered via
the debounced path. -/
theorem c5_poller_error_aborts_witness :
    (poll ([okPoller] ++ badPoller :: [okPoller]) okEmit
        (windowOf .debounced (listenerInit 999000).lastCheck 1000000)).2
      = [okPoller].length + 1
    ∧ cycleStep ([okPoller] ++ badPoller :: [okPoller]) okEmit .debounced
        1000000 (listenerInit 999000)
      = { listenerInit 999000 with
          errorLog := (listenerInit 999000).errorLog
            ++ [cycleErrorMsg .debounced "poller exploded"] } :=
  c5_poller_error_aborts [okPoller] badPoller [okPoller] okEmit .debounced
    1000000 (listenerInit 999000) "poller exploded"
    (by
      intro p hp
      rw [List.mem_singleton] at hp
      subst hp
      exact ⟨[], rfl, rfl⟩)
    rfl

/-- C10: every cycle, failing or not, releases exactly the permit it
acquired, so the permit count is an invariant of `cycleStep`; consequently
after any finite sequence of cycles from a freshly started listener the
lock is free again (one permit available) and a later trigger is never
permanently blocked by a failed cycle. -/
theorem c10_lock_released :
    (∀ (pollers : List Poller) (emitF : EmitFn) (src : TriggerSource)
        (now : Int) (st : ListenerState),
      (cycleStep pollers emitF src now st).permits = st.permits)
    ∧ ∀ (cs : List CycleInput) (st : ListenerState),
        st.permits = 1 → (runCycles st cs).permits = 1 := by
  have hstep : ∀ (pollers : List Poller) (emitF : EmitFn)
      (src : TriggerSource) (now : Int) (st : ListenerState),
      (cycleStep pollers emitF src now st).permits = st.permits := by
    intro pollers emitF src now st
    simp only [cycleStep]
    split <;> simp
  refine ⟨hstep, ?_⟩
  intro cs
  induction cs with
  | nil => intro st h; exact h
  | cons c cs ih =>
    intro st h
    have h2 : (cycleStep c.pollers c.emitF c.src c.now st).permits = 1 := by
      rw [hstep]; exact h
    exact ih _ h2

/-- C10 witness: a two-cycle run whose first cycle fails leaves the lock
free. -/
theorem c10_lock_released_witness :
    (runCycles (listenerInit 0)
      [⟨[badPoller], okEmit, .debounced, 100⟩,
       ⟨[okPoller], okEmit, .fallback, 200⟩]).permits = 1 :=
  c10_lock_released.2
    [⟨[badPoller], okEmit, .debounced, 100⟩,
     ⟨[okPoller], okEmit, .fallback, 200⟩]
    (listenerInit 0) rfl

/-- Modelled from the spec: the `DebounceSubsequentWithWait` decorator that
wraps `handleChangeEvent` ships outside the reviewed source (only its use
site and its imported name appear there).  Per spec §4.2 and §9, each raw
notification (re)schedules a fixed wait on a single named key — a pending
timer is cancelled and rescheduled rather than doubled — and the wrapped
handler fires when the wait elapses with no further notification.  Given
the nondecreasing times of the incoming notifications, this computes the
times at which the wrapped handler fires. -/
def debounceFireTimes (wait : Int) : List Int → List Int
  | [] => []
  | [t] => [t + wait]
  | t :: t2 :: ts =>
    if t2 - t < wait then debounceFireTimes wait (t2 :: ts)
    else (t + wait) :: debounceFireTimes wait (t2 :: ts)

/-- C9: for a burst of N ≥ 1 raw change notifications whose consecutive
gaps are all shorter than the 500 ms debounce wait, the debounced handler
fires exactly once — hence exactly one poll cycle executes via the
debounced path — and the fire happens only once the wait has elapsed after
the burst's last notification. -/
theorem c9_debounce_single_fire (t : Int) (ts : List Int)
    (hgap : List.Chain' (fun a b => b - a < 500) (t :: ts)) :
    debounceFireTimes 500 (t :: ts)
      = [(t :: ts).getLast (by simp) + 500] := by
  induction ts generalizing t with
  | nil => simp [debounceFireTimes]
  | cons t2 ts ih =>
    rw [List.chain'_cons] at hgap
    have h2 := ih t2 hgap.2
    simp only [debounceFireTimes, if_pos hgap.1]
    rw [h2]
    exact congrArg (fun x => [x + 500]) (List.getLast_cons (by simp)).symm

/-- C9 witness: a four-notification burst with gaps 100, 350 and 450 ms
fires exactly once, 500 ms after the last notification. -/
theorem c9_debounce_single_fire_witness :
    debounceFireTimes 500 [0, 100, 450, 900] = [1400] := by
  rw [c9_debounce_single_fire 0 [100, 450, 900]
    (by exact .cons (by norm_num) (.cons (by norm_num) (.cons (by norm_num) .nil)))]
  rfl

end BlueBubbles
